import Mathlib

/-!
Verification of the DMDcontrol calibration / sequence core.

Shallow embedding of the geometric-calibration and pattern-sequence logic of
the DMDcontrol repository (`stim1p/logic/calibration.py`,
`stim1p/logic/geometry.py`, `stim1p/logic/sequence.py`,
`stim1p/logic/synchronisation.py`).

Modelling conventions:
* Python `float` (numpy float64) values are modelled as real numbers `ℝ`;
  rounding error is out of scope, so the spec's "within 1e-9 relative
  tolerance" statements are settled as exact equalities over `ℝ`.
* Coordinates are single 2-vectors `ℝ × ℝ`, matching the one-column case of
  the `(2, N)` numpy convention; the `_ensure_2xn` array-shape plumbing is
  not modelled.
* Functions that raise `ValueError` / `AssertionError` / `IndexError` are
  modelled in the `Except String` monad, carrying the source error message.
* `np.linalg.inv` on a 2×2 matrix is the exact adjugate-over-determinant
  inverse; `np.linalg.norm` is `Real.sqrt` of the sum of squares;
  `np.arctan2 y x` is `Complex.arg ⟨x, y⟩` (both return values in (−π, π]
  and agree on all quadrant conventions, including `atan2 0 0 = 0`);
  the Python float modulus `a % b` (sign following `b`) is
  `a - b * ⌊a / b⌋`.
* The `skimage.draw.polygon2mask` rasterizer is an external library
  collaborator; the functions that use it are parametrised over it.
-/

open scoped Real

noncomputable section

/-- A 2×2 real matrix, row major: `[[a, b], [c, d]]`. -/
structure Mat2 where
  a : ℝ
  b : ℝ
  c : ℝ
  d : ℝ

def Mat2.mulVec (M : Mat2) (v : ℝ × ℝ) : ℝ × ℝ :=
  (M.a * v.1 + M.b * v.2, M.c * v.1 + M.d * v.2)

def Mat2.mul (M N : Mat2) : Mat2 :=
  ⟨M.a * N.a + M.b * N.c, M.a * N.b + M.b * N.d,
   M.c * N.a + M.d * N.c, M.c * N.b + M.d * N.d⟩

def Mat2.det (M : Mat2) : ℝ := M.a * M.d - M.b * M.c

/-- Exact 2×2 matrix inverse (`np.linalg.inv` on a nonsingular matrix). -/
def Mat2.inv (M : Mat2) : Mat2 :=
  ⟨M.d / M.det, -M.b / M.det, -M.c / M.det, M.a / M.det⟩

/-- Embeds `np.arctan2 y x`, with the numpy quadrant and range (−π, π] conventions. -/
def atan2 (y x : ℝ) : ℝ := Complex.arg { re := x, im := y }

/-- Python float modulus `a % b`: the result has the sign of `b`. -/
def pymod (a b : ℝ) : ℝ := a - b * ⌊a / b⌋

/-- Embeds `_rotation_matrix` from `stim1p/logic/calibration.py`. -/
def _rotation_matrix (angle : ℝ) : Mat2 :=
  ⟨Real.cos angle, -Real.sin angle, Real.sin angle, Real.cos angle⟩

/-- Embeds `DMDCalibration` from `stim1p/logic/calibration.py`: bidirectional
mappings between camera pixels, DMD mirrors and micrometres. -/
structure DMDCalibration where
  dmd_shape : ℤ × ℤ := (1024, 768)
  camera_shape : ℤ × ℤ := (1024, 768)
  camera_origin_pixels : ℝ × ℝ := (0.0, 0.0)
  camera_pixels_per_mirror : ℝ × ℝ := (1.0, 1.0)
  camera_rotation_rad : ℝ := 0.0
  camera_pixel_size_um : ℝ := 1.0
  micrometers_per_mirror : ℝ × ℝ := (1.0, 1.0)
  invert_x : Bool := false
  invert_y : Bool := false

/-- Embeds `DMDCalibration._camera_basis_matrix`: rotation · diag(pixels-per-mirror). -/
def DMDCalibration._camera_basis_matrix (c : DMDCalibration) : Mat2 :=
  (_rotation_matrix c.camera_rotation_rad).mul
    ⟨c.camera_pixels_per_mirror.1, 0.0, 0.0, c.camera_pixels_per_mirror.2⟩

/-- Embeds `DMDCalibration.camera_to_image`: divide by `max (shape - 1) 1`. -/
def DMDCalibration.camera_to_image (c : DMDCalibration) (coords : ℝ × ℝ) : ℝ × ℝ :=
  (coords.1 / (max (c.camera_shape.1 - 1) 1 : ℤ),
   coords.2 / (max (c.camera_shape.2 - 1) 1 : ℤ))

/-- Embeds `DMDCalibration.image_to_camera`: multiply by `shape - 1` (no flooring). -/
def DMDCalibration.image_to_camera (c : DMDCalibration) (coords : ℝ × ℝ) : ℝ × ℝ :=
  (coords.1 * ((c.camera_shape.1 - 1 : ℤ) : ℝ),
   coords.2 * ((c.camera_shape.2 - 1 : ℤ) : ℝ))

/-- Embeds `DMDCalibration.camera_to_dmd`: `inv(basis) @ (coords - origin)`. -/
def DMDCalibration.camera_to_dmd (c : DMDCalibration) (coords : ℝ × ℝ) : ℝ × ℝ :=
  c._camera_basis_matrix.inv.mulVec
    (coords.1 - c.camera_origin_pixels.1, coords.2 - c.camera_origin_pixels.2)

/-- Embeds `DMDCalibration.dmd_to_camera`: `origin + basis @ coords`. -/
def DMDCalibration.dmd_to_camera (c : DMDCalibration) (coords : ℝ × ℝ) : ℝ × ℝ :=
  (c.camera_origin_pixels.1 + (c._camera_basis_matrix.mulVec coords).1,
   c.camera_origin_pixels.2 + (c._camera_basis_matrix.mulVec coords).2)

/-- Embeds `DMDCalibration.dmd_to_micrometre`: per-axis scale by `micrometers_per_mirror`. -/
def DMDCalibration.dmd_to_micrometre (c : DMDCalibration) (coords : ℝ × ℝ) : ℝ × ℝ :=
  (coords.1 * c.micrometers_per_mirror.1, coords.2 * c.micrometers_per_mirror.2)

/-- Embeds `DMDCalibration.micrometre_to_dmd`: per-axis division by `micrometers_per_mirror`. -/
def DMDCalibration.micrometre_to_dmd (c : DMDCalibration) (coords : ℝ × ℝ) : ℝ × ℝ :=
  (coords.1 / c.micrometers_per_mirror.1, coords.2 / c.micrometers_per_mirror.2)

/-- Embeds `DMDCalibration.camera_to_micrometre = dmd_to_micrometre ∘ camera_to_dmd`. -/
def DMDCalibration.camera_to_micrometre (c : DMDCalibration) (coords : ℝ × ℝ) : ℝ × ℝ :=
  c.dmd_to_micrometre (c.camera_to_dmd coords)

/-- Embeds `DMDCalibration.micrometre_to_camera = dmd_to_camera ∘ micrometre_to_dmd`. -/
def DMDCalibration.micrometre_to_camera (c : DMDCalibration) (coords : ℝ × ℝ) : ℝ × ℝ :=
  c.dmd_to_camera (c.micrometre_to_dmd coords)

/-- First diagonal point, `coords[0]` (the solver only reads it after
checking that at least two points are present, so the default is inert). -/
def pFirst (l : List (ℝ × ℝ)) : ℝ × ℝ := l.headD (0, 0)

/-- Last diagonal point, `coords[-1]`. -/
def pLast (l : List (ℝ × ℝ)) : ℝ × ℝ := l.getLastD (0, 0)

/-- The rotation wrap in `compute_calibration_from_square`:
`(angle_cam - angle_ref + pi) % (2 pi) - pi`. -/
def wrap_angle (v : ℝ) : ℝ := pymod (v + π) (2 * π) - π

/-- The wrap followed by the ±π/2 normalisation branches of
`compute_calibration_from_square`. -/
def normalize_rotation (v : ℝ) : ℝ :=
  if wrap_angle v > π / 2 then wrap_angle v - π
  else if wrap_angle v < -(π / 2) then wrap_angle v + π
  else wrap_angle v

/-- Embeds `mirror_dimensions` is `tuple[int, int] | int` in the source; the scalar
branch uses the same count for both axes. -/
def resolveMirrors : ℤ ⊕ ℤ × ℤ → ℤ × ℤ
  | .inl n => (n, n)
  | .inr xy => xy

/-- Embeds `compute_calibration_from_square` from `stim1p/logic/calibration.py`,
with `ValueError` modelled as `Except.error` carrying the source message. -/
def compute_calibration_from_square (diagonal_coords_camera : List (ℝ × ℝ))
    (mirror_dimensions : ℤ ⊕ ℤ × ℤ) (pixel_size_um : ℝ)
    (camera_shape : ℤ × ℤ) (dmd_shape : ℤ × ℤ := (1024, 768))
    (invert_x : Bool := false) (invert_y : Bool := false) :
    Except String DMDCalibration :=
  if diagonal_coords_camera.length < 2 then
    .error "At least two points are required to define the diagonal."
  else
    let p0 := pFirst diagonal_coords_camera
    let p1 := pLast diagonal_coords_camera
    let diagonal_vector := (p1.1 - p0.1, p1.2 - p0.2)
    let diagonal_length := Real.sqrt (diagonal_vector.1 ^ 2 + diagonal_vector.2 ^ 2)
    if diagonal_length ≤ 0 then
      .error "Calibration diagonal must have a positive length."
    else
      let mirrors := resolveMirrors mirror_dimensions
      if mirrors.1 ≤ 0 ∨ mirrors.2 ≤ 0 then
        .error "Mirror dimensions must be positive integers."
      else if pixel_size_um ≤ 0 then
        .error "Pixel size must be strictly positive."
      else
        let diag_sign : ℝ := if diagonal_vector.1 * diagonal_vector.2 ≥ 0 then 1 else -1
        let diag_dmd_vector := (diag_sign * (mirrors.1 : ℝ), (mirrors.2 : ℝ))
        let diag_mirror_length :=
          Real.sqrt (diag_dmd_vector.1 ^ 2 + diag_dmd_vector.2 ^ 2)
        if diag_mirror_length = 0 then
          .error "Mirror diagonal must have a positive length."
        else
          let pixels_per_mirror := diagonal_length / diag_mirror_length
          let angle_cam := atan2 diagonal_vector.2 diagonal_vector.1
          let angle_ref := atan2 diag_dmd_vector.2 diag_dmd_vector.1
          let rotation := normalize_rotation (angle_cam - angle_ref)
          let basis := (_rotation_matrix rotation).mul
            ⟨pixels_per_mirror, 0.0, 0.0, pixels_per_mirror⟩
          let center_camera := ((p0.1 + p1.1) / 2, (p0.2 + p1.2) / 2)
          let center_dmd := ((dmd_shape.1 : ℝ) / 2, (dmd_shape.2 : ℝ) / 2)
          let camera_origin := (center_camera.1 - (basis.mulVec center_dmd).1,
            center_camera.2 - (basis.mulVec center_dmd).2)
          .ok
            { dmd_shape := dmd_shape
              camera_shape := camera_shape
              camera_origin_pixels := camera_origin
              camera_pixels_per_mirror := (pixels_per_mirror, pixels_per_mirror)
              camera_rotation_rad := rotation
              camera_pixel_size_um := pixel_size_um
              micrometers_per_mirror :=
                (pixels_per_mirror * pixel_size_um, pixels_per_mirror * pixel_size_um)
              invert_x := invert_x
              invert_y := invert_y }

/-- Embeds `AxisDefinition` from `stim1p/logic/geometry.py`: placement of the
user-defined object axis in camera space. -/
structure AxisDefinition where
  origin_camera : ℝ × ℝ
  angle_rad : ℝ

/-- Embeds `_camera_pixel_to_micrometre_scale`: micrometre length of one camera
pixel along each axis. -/
def _camera_pixel_to_micrometre_scale (c : DMDCalibration) : ℝ × ℝ :=
  (c.micrometers_per_mirror.1 / c.camera_pixels_per_mirror.1,
   c.micrometers_per_mirror.2 / c.camera_pixels_per_mirror.2)

/-- Embeds `axis_definition_components`: origin, per-axis scales and unit vectors in
micrometres.  `basis_um = per_pixel_um.reshape(2,1) * rotation` scales the
rows of the rotation matrix; `scales` are the column norms.  The source's
`np.isfinite` part of the validity check is vacuous over `ℝ`; the `ValueError`
it raises on a non-positive scale is the `Except.error`. -/
def axis_definition_components (axis : AxisDefinition) (c : DMDCalibration) :
    Except String ((ℝ × ℝ) × (ℝ × ℝ) × Mat2) :=
  let origin_um := c.camera_to_micrometre axis.origin_camera
  let rotation := _rotation_matrix axis.angle_rad
  let per_pixel_um := _camera_pixel_to_micrometre_scale c
  let basis_um : Mat2 :=
    ⟨per_pixel_um.1 * rotation.a, per_pixel_um.1 * rotation.b,
     per_pixel_um.2 * rotation.c, per_pixel_um.2 * rotation.d⟩
  let scales := (Real.sqrt (basis_um.a ^ 2 + basis_um.c ^ 2),
    Real.sqrt (basis_um.b ^ 2 + basis_um.d ^ 2))
  if scales.1 ≤ 0 ∨ scales.2 ≤ 0 then
    .error "Invalid axis scale computed from calibration."
  else
    let unit_vectors : Mat2 :=
      ⟨basis_um.a / scales.1, basis_um.b / scales.2,
       basis_um.c / scales.1, basis_um.d / scales.2⟩
    .ok (origin_um, scales, unit_vectors)

/-- Embeds `axis_micrometre_scale`: the per-axis micrometre scale of
`axis_definition_components` (propagating its `ValueError`). -/
def axis_micrometre_scale (axis : AxisDefinition) (c : DMDCalibration) :
    Except String (ℝ × ℝ) :=
  (axis_definition_components axis c).map fun comp => comp.2.1

/-- Embeds `axis_pixels_to_axis_micrometre`: multiply axis-frame pixel coordinates
per-axis by the scales (single-point case of `pts * scales.reshape(1, 2)`). -/
def axis_pixels_to_axis_micrometre (points : ℝ × ℝ) (axis : AxisDefinition)
    (c : DMDCalibration) : Except String (ℝ × ℝ) :=
  (axis_micrometre_scale axis c).map fun scales =>
    (points.1 * scales.1, points.2 * scales.2)

/-- Embeds `axis_micrometre_to_axis_pixels`: divide per-axis by the scales. -/
def axis_micrometre_to_axis_pixels (points_um : ℝ × ℝ) (axis : AxisDefinition)
    (c : DMDCalibration) : Except String (ℝ × ℝ) :=
  (axis_micrometre_scale axis c).map fun scales =>
    (points_um.1 / scales.1, points_um.2 / scales.2)

/-- Embeds `axis_micrometre_to_global`: `origin_um + x * unit_vectors[:,0] +
y * unit_vectors[:,1]` (single-point case). -/
def axis_micrometre_to_global (points_um : ℝ × ℝ) (axis : AxisDefinition)
    (c : DMDCalibration) : Except String (ℝ × ℝ) :=
  (axis_definition_components axis c).map fun comp =>
    (comp.1.1 + points_um.1 * comp.2.2.a + points_um.2 * comp.2.2.b,
     comp.1.2 + points_um.1 * comp.2.2.c + points_um.2 * comp.2.2.d)

/-- Embeds `axis_polygons_to_global`: map every vertex of every polygon. -/
def axis_polygons_to_global (polygons : List (List (ℝ × ℝ)))
    (axis : AxisDefinition) (c : DMDCalibration) :
    Except String (List (List (ℝ × ℝ))) :=
  polygons.mapM fun poly => poly.mapM fun p => axis_micrometre_to_global p axis c

/-- Embeds `_axis_to_camera` from `stim1p/ui/dmd_widget/axis.py` (single-point
case): rotate by `angle`, then add the origin. -/
def axis_to_camera (points : ℝ × ℝ) (origin : ℝ × ℝ) (angle : ℝ) : ℝ × ℝ :=
  (((_rotation_matrix angle).mulVec points).1 + origin.1,
   ((_rotation_matrix angle).mulVec points).2 + origin.2)

/-- Embeds `polygons_to_mask` from `stim1p/logic/geometry.py`, parametrised over the
external `skimage.draw.polygon2mask` collaborator.  Masks are Boolean
functions of mirror index; the union across polygons is the fold of `or`. -/
def polygons_to_mask (polygon2mask : ℤ × ℤ → List (ℝ × ℝ) → (ℤ × ℤ → Bool))
    (polygons : List (List (ℝ × ℝ))) (c : DMDCalibration) : ℤ × ℤ → Bool :=
  let width := c.dmd_shape.1
  let height := c.dmd_shape.2
  polygons.foldl
    (fun mask polygon =>
      let polygon_dmd := polygon.map fun p => c.micrometre_to_dmd p
      let polygon_dmd :=
        if c.invert_x then
          polygon_dmd.map fun p => (((width : ℝ) - 1) - p.1, p.2)
        else polygon_dmd
      let polygon_dmd :=
        if c.invert_y then
          polygon_dmd.map fun p => (p.1, ((height : ℝ) - 1) - p.2)
        else polygon_dmd
      fun idx => mask idx || polygon2mask c.dmd_shape polygon_dmd idx)
    (fun _ => false)

end

/-- Embeds `PatternSequence` from `stim1p/logic/sequence.py`; a pattern is a list of
polygons, each a list of micrometre vertices.  Timings and durations
(`timedelta`) are real time quantities. -/
structure PatternSequence where
  patterns : List (List (List (ℝ × ℝ)))
  sequence : List ℤ
  timings : List ℝ
  durations : List ℝ
  descriptions : Option (List String) := none
  shape_types : Option (List (List String)) := none

/-- The `descriptions` check of `PatternSequence.__post_init__`. -/
def _check_descriptions (patterns : List (List (List (ℝ × ℝ))))
    (descriptions : Option (List String)) : Except String Unit :=
  match descriptions with
  | none => .ok ()
  | some d =>
    if d.length ≠ patterns.length then
      .error "descriptions must have the same length as patterns if provided."
    else .ok ()

/-- The `shape_types` checks of `PatternSequence.__post_init__` (outer
length, then each inner length against the corresponding pattern). -/
def _check_shape_types (patterns : List (List (List (ℝ × ℝ))))
    (shape_types : Option (List (List String))) : Except String Unit :=
  match shape_types with
  | none => .ok ()
  | some st =>
    if st.length ≠ patterns.length then
      .error "shape_types must have the same length as patterns if provided."
    else if (st.zip patterns).any fun pr => pr.1.length != pr.2.length then
      .error "shape_types entries must have the same length as the corresponding pattern."
    else .ok ()

/-- Constructing a `PatternSequence` runs `__post_init__`; a `ValueError` is
an `Except.error`. -/
def mkPatternSequence (patterns : List (List (List (ℝ × ℝ))))
    (sequence : List ℤ) (timings durations : List ℝ)
    (descriptions : Option (List String) := none)
    (shape_types : Option (List (List String)) := none) :
    Except String PatternSequence :=
  if ¬(sequence.length = timings.length ∧ timings.length = durations.length) then
    .error "sequence, timings, and durations must all have the same length."
  else
    match _check_descriptions patterns descriptions with
    | .error e => .error e
    | .ok _ =>
      match _check_shape_types patterns shape_types with
      | .error e => .error e
      | .ok _ =>
        .ok ⟨patterns, sequence, timings, durations, descriptions, shape_types⟩

/-- Device handle of `play_pattern_sequence`: the only state the scheduler
writes before running is the uploaded frame stack (`dmd.frames = ...`). -/
structure DeviceState where
  frames : Option (List (ℤ × ℤ → Bool)) := none

noncomputable section

/-- Embeds `play_pattern_sequence` from `stim1p/logic/sequence.py`, up to the point
where the schedule of absolute-time `show_frame` actions has been built.
`datetime.now()` is the input `now`; the failed `assert` is an
`Except.error`; an empty `timings` list makes `timings[0]` raise an
`IndexError`.  On success the result is the device with the rasterized frame
stack uploaded, together with the `(absolute time, frame index)` schedule
built from `zip(sequence, timings)`; running the schedule in real time and
its cooperative cancellation thread are outside the model. -/
def play_pattern_sequence (polygon2mask : ℤ × ℤ → List (ℝ × ℝ) → (ℤ × ℤ → Bool))
    (dmd : DeviceState) (pattern_sequence : PatternSequence)
    (calibration : DMDCalibration) (delay : ℝ)
    (axis_definition : Option AxisDefinition) (now : ℝ) :
    Except String (DeviceState × List (ℝ × ℤ)) :=
  let t0 := now + delay
  match pattern_sequence.timings with
  | [] => .error "list index out of range"
  | t :: _ =>
    if ¬(t + delay ≥ 0) then
      .error "Anticipation cannot be longer than the first timing."
    else
      match (match axis_definition with
             | some a =>
               pattern_sequence.patterns.mapM fun pattern =>
                 axis_polygons_to_global pattern a calibration
             | none => .ok pattern_sequence.patterns) with
      | .error e => .error e
      | .ok transformed_patterns =>
        let frames := transformed_patterns.map fun pattern =>
          polygons_to_mask polygon2mask pattern calibration
        let schedule := (pattern_sequence.sequence.zip pattern_sequence.timings).map
          fun ft => (t0 + ft.2, ft.1)
        .ok ({ frames := some frames }, schedule)

end

/-- Status replies of `CancellableTask` in `stim1p/logic/synchronisation.py`. -/
inductive TaskStatus where
  | started
  | already_running
  | stopped
  | not_running
  deriving DecidableEq, Repr

/-- Observable state of a `CancellableTask`: whether `self._thread` is a
live worker, and whether the cancellation event `self._stop_evt` is set. -/
structure CancellableTaskState where
  threadAlive : Bool
  stopEvt : Bool
  deriving DecidableEq, Repr

/-- Embeds `CancellableTask.is_running`: the worker handle is set and alive. -/
def CancellableTask.is_running (s : CancellableTaskState) : Bool := s.threadAlive

/-- Embeds `CancellableTask.start`: refuse when already running; otherwise clear
the cancellation signal and launch a new live worker. -/
def CancellableTask.start (s : CancellableTaskState) :
    TaskStatus × CancellableTaskState :=
  if CancellableTask.is_running s then (.already_running, s)
  else (.started, { threadAlive := true, stopEvt := false })

/-- Embeds `CancellableTask.stop`: refuse when not running; otherwise set the
cancellation signal and join the worker with a bounded timeout.  Whether the
worker actually exits within the timeout depends on the environment and is
the Boolean input `workerExits`. -/
def CancellableTask.stop (s : CancellableTaskState) (workerExits : Bool) :
    TaskStatus × CancellableTaskState :=
  if ¬CancellableTask.is_running s then (.not_running, s)
  else (.stopped, { threadAlive := !workerExits, stopEvt := true })

/-- The calibration produced by the solver on the synthetic axis-aligned
square of side 100 mirrors with diagonal endpoints (0,0) and (100,100). -/
noncomputable def solverSquareCal : DMDCalibration :=
  { dmd_shape := (100, 100)
    camera_shape := (100, 100)
    camera_origin_pixels := (0, 0)
    camera_pixels_per_mirror := (1, 1)
    camera_rotation_rad := 0
    camera_pixel_size_um := 2
    micrometers_per_mirror := (2, 2)
    invert_x := false
    invert_y := false }

/-- A calibration whose x micrometre scale is zero, so the per-axis scale
computed by `axis_definition_components` degenerates. -/
noncomputable def zeroScaleCal : DMDCalibration :=
  { micrometers_per_mirror := (0, 1) }

section Mat2Lemmas

lemma Mat2.inv_mulVec_mulVec (M : Mat2) (v : ℝ × ℝ) (h : M.det ≠ 0) :
    M.inv.mulVec (M.mulVec v) = v := by
  have hd : M.a * M.d - M.b * M.c ≠ 0 := h
  unfold Mat2.inv Mat2.mulVec Mat2.det
  apply Prod.ext <;> field_simp <;> ring

lemma camera_basis_det (c : DMDCalibration) :
    c._camera_basis_matrix.det =
      c.camera_pixels_per_mirror.1 * c.camera_pixels_per_mirror.2 := by
  unfold DMDCalibration._camera_basis_matrix _rotation_matrix Mat2.mul Mat2.det
  dsimp only
  have h := Real.sin_sq_add_cos_sq c.camera_rotation_rad
  linear_combination (c.camera_pixels_per_mirror.1 * c.camera_pixels_per_mirror.2) * h

end Mat2Lemmas

section RotationLemmas

lemma pymod_mem (a b : ℝ) (hb : 0 < b) : 0 ≤ pymod a b ∧ pymod a b < b := by
  have hb0 : b ≠ 0 := ne_of_gt hb
  have hfract : pymod a b = b * Int.fract (a / b) := by
    unfold pymod Int.fract
    field_simp
  constructor
  · rw [hfract]
    exact mul_nonneg hb.le (Int.fract_nonneg _)
  · rw [hfract]
    calc b * Int.fract (a / b) < b * 1 :=
          (mul_lt_mul_left hb).mpr (Int.fract_lt_one _)
    _ = b := mul_one b

lemma wrap_angle_mem (v : ℝ) : -π ≤ wrap_angle v ∧ wrap_angle v < π := by
  have h2pi : (0 : ℝ) < 2 * π := by positivity
  have h := pymod_mem (v + π) (2 * π) h2pi
  unfold wrap_angle
  constructor <;> linarith [h.1, h.2]

lemma normalize_rotation_mem (v : ℝ) :
    -(π / 2) ≤ normalize_rotation v ∧ normalize_rotation v ≤ π / 2 := by
  have hw := wrap_angle_mem v
  have hpi := Real.pi_pos
  unfold normalize_rotation
  split_ifs with h1 h2
  · constructor <;> linarith [hw.1, hw.2]
  · constructor <;> linarith [hw.1, hw.2]
  · constructor <;> linarith [hw.1, hw.2]

end RotationLemmas

lemma normalize_rotation_zero : normalize_rotation 0 = 0 := by
  have hpi := Real.pi_pos
  have hw : wrap_angle 0 = 0 := by
    have hhalf : (0 + π) / (2 * π) = 1 / 2 := by
      have h := Real.pi_ne_zero
      field_simp
      ring
    unfold wrap_angle pymod
    rw [hhalf]
    norm_num
  unfold normalize_rotation
  rw [hw, if_neg (by linarith), if_neg (by linarith)]

lemma solver_square_value :
    compute_calibration_from_square [(0, 0), (100, 100)] (Sum.inl 100) 2
      (100, 100) (100, 100) false false = .ok solverSquareCal := by
  have hsqrt : (0 : ℝ) < Real.sqrt 20000 := Real.sqrt_pos.mpr (by norm_num)
  unfold compute_calibration_from_square
  simp only [pFirst, pLast, List.headD_cons, List.getLastD_cons,
    resolveMirrors, List.length_cons, List.length_nil]
  norm_num
  rw [if_neg (not_le.mpr hsqrt), normalize_rotation_zero]
  unfold solverSquareCal _rotation_matrix Mat2.mul Mat2.mulVec
  norm_num

/-- Claim C2: on the synthetic input with diagonal endpoints (0,0), (100,100),
100 mirrors, pixel size 2.0 µm and 100×100 camera and DMD shapes,
`compute_calibration_from_square` returns `camera_pixels_per_mirror = (1, 1)`,
`camera_rotation_rad = 0` and `micrometers_per_mirror = (2, 2)` (exactly, in
the real-number model, hence within any positive tolerance). -/
theorem solver_square_exactness :
    ∃ cal : DMDCalibration,
      compute_calibration_from_square [(0, 0), (100, 100)] (Sum.inl 100) 2
          (100, 100) (100, 100) false false = .ok cal ∧
        cal.camera_pixels_per_mirror = (1, 1) ∧
        cal.camera_rotation_rad = 0 ∧
        cal.micrometers_per_mirror = (2, 2) :=
  ⟨solverSquareCal, solver_square_value, rfl, rfl, rfl⟩

/-- Claim C3: the solver's rotation is the angle difference wrapped into a
half-open period of length 2π around 0 and then shifted by ±π when its
magnitude exceeds π/2, so every calibration returned by
`compute_calibration_from_square` has `camera_rotation_rad ∈ [-π/2, π/2]`. -/
theorem solver_rotation_range (diagonal_coords_camera : List (ℝ × ℝ))
    (mirror_dimensions : ℤ ⊕ ℤ × ℤ) (pixel_size_um : ℝ)
    (camera_shape dmd_shape : ℤ × ℤ) (invert_x invert_y : Bool)
    (cal : DMDCalibration)
    (h : compute_calibration_from_square diagonal_coords_camera mirror_dimensions
          pixel_size_um camera_shape dmd_shape invert_x invert_y = .ok cal) :
    -(π / 2) ≤ cal.camera_rotation_rad ∧ cal.camera_rotation_rad ≤ π / 2 := by
  unfold compute_calibration_from_square at h
  simp only at h
  split_ifs at h <;>
  · simp only [Except.ok.injEq] at h
    subst h
    exact normalize_rotation_mem _

/-- Witness for C3: on the concrete square input the returned rotation obeys
the bounds. -/
theorem solver_rotation_range_witness :
    -(π / 2) ≤ solverSquareCal.camera_rotation_rad ∧
      solverSquareCal.camera_rotation_rad ≤ π / 2 :=
  solver_rotation_range [(0, 0), (100, 100)] (Sum.inl 100) 2 (100, 100)
    (100, 100) false false solverSquareCal solver_square_value

/-- Claim C4: whenever the observed diagonal `p_last - p_first` has length
≤ 0, or the mirror dimensions are not positive, or `pixel_size_um ≤ 0`,
`compute_calibration_from_square` fails with a `ValueError` and returns no
calibration (the `Except` result carries only the error message). -/
theorem solver_invalid_input_rejected (coords : List (ℝ × ℝ))
    (mirror_dimensions : ℤ ⊕ ℤ × ℤ) (pixel_size_um : ℝ)
    (camera_shape dmd_shape : ℤ × ℤ) (invert_x invert_y : Bool)
    (h : Real.sqrt (((pLast coords).1 - (pFirst coords).1) ^ 2 +
          ((pLast coords).2 - (pFirst coords).2) ^ 2) ≤ 0 ∨
        (resolveMirrors mirror_dimensions).1 ≤ 0 ∨
        (resolveMirrors mirror_dimensions).2 ≤ 0 ∨ pixel_size_um ≤ 0) :
    ∃ msg, compute_calibration_from_square coords mirror_dimensions
        pixel_size_um camera_shape dmd_shape invert_x invert_y = .error msg := by
  unfold compute_calibration_from_square
  simp only
  split_ifs with h1 h2 h3 h4 h5 <;> first
    | exact ⟨_, rfl⟩
    | tauto

/-- Witness for C4: a degenerate diagonal (both endpoints (0,0)) is
rejected. -/
theorem solver_invalid_input_rejected_witness :
    ∃ msg, compute_calibration_from_square [(0, 0), (0, 0)] (Sum.inl 100) 2
        (100, 100) (100, 100) false false = .error msg :=
  solver_invalid_input_rejected [(0, 0), (0, 0)] (Sum.inl 100) 2 (100, 100)
    (100, 100) false false (Or.inl (by simp [pFirst, pLast]))

/-- Claim C1: for every calibration whose scale factors
`camera_pixels_per_mirror` and `micrometers_per_mirror` are strictly positive
(finiteness is automatic over `ℝ`), and every point `p`,
`camera_to_dmd (dmd_to_camera p) = p` and
`dmd_to_micrometre (micrometre_to_dmd p) = p` — exactly, hence in particular
within the spec's 1e-9 relative tolerance. -/
theorem calibration_roundtrips (c : DMDCalibration) (p : ℝ × ℝ)
    (hs1 : 0 < c.camera_pixels_per_mirror.1)
    (hs2 : 0 < c.camera_pixels_per_mirror.2)
    (hm1 : 0 < c.micrometers_per_mirror.1)
    (hm2 : 0 < c.micrometers_per_mirror.2) :
    c.camera_to_dmd (c.dmd_to_camera p) = p ∧
      c.dmd_to_micrometre (c.micrometre_to_dmd p) = p := by
  constructor
  · have hdet : c._camera_basis_matrix.det ≠ 0 := by
      rw [camera_basis_det]; positivity
    unfold DMDCalibration.camera_to_dmd DMDCalibration.dmd_to_camera
    have hsub :
        ((c.camera_origin_pixels.1 + (c._camera_basis_matrix.mulVec p).1)
            - c.camera_origin_pixels.1,
          (c.camera_origin_pixels.2 + (c._camera_basis_matrix.mulVec p).2)
            - c.camera_origin_pixels.2) = c._camera_basis_matrix.mulVec p := by
      apply Prod.ext <;> ring
    rw [hsub, Mat2.inv_mulVec_mulVec _ _ hdet]
  · unfold DMDCalibration.dmd_to_micrometre DMDCalibration.micrometre_to_dmd
    have h1 := ne_of_gt hm1
    have h2 := ne_of_gt hm2
    apply Prod.ext
    · exact div_mul_cancel₀ _ h1
    · exact div_mul_cancel₀ _ h2

/-- Witness for C1: the round trips hold at the default calibration and the
point (3, 4). -/
theorem calibration_roundtrips_witness :
    let c : DMDCalibration := {}
    c.camera_to_dmd (c.dmd_to_camera (3, 4)) = (3, 4) ∧
      c.dmd_to_micrometre (c.micrometre_to_dmd (3, 4)) = (3, 4) :=
  calibration_roundtrips {} (3, 4)
    (by norm_num) (by norm_num) (by norm_num) (by norm_num)

/-- Claim C10: when a `camera_shape` dimension equals 1, `image_to_camera`
multiplies that axis by `camera_shape - 1 = 0` (there is no counterpart of
the floor-to-1 used in `camera_to_image`), so the round trip
`image_to_camera (camera_to_image p)` sends that axis of every point to 0. -/
theorem image_camera_degenerate_roundtrip (c : DMDCalibration) (p : ℝ × ℝ) :
    (c.camera_shape.1 = 1 → (c.image_to_camera (c.camera_to_image p)).1 = 0) ∧
      (c.camera_shape.2 = 1 → (c.image_to_camera (c.camera_to_image p)).2 = 0) := by
  unfold DMDCalibration.image_to_camera DMDCalibration.camera_to_image
  refine ⟨fun h => ?_, fun h => ?_⟩
  · simp [h]
  · simp [h]

/-- Witness for C10: with a 1×768 camera shape, the point (3, 4) round-trips
to 0 on the x axis. -/
theorem image_camera_degenerate_roundtrip_witness :
    let c : DMDCalibration := { camera_shape := (1, 768) }
    (c.image_to_camera (c.camera_to_image (3, 4))).1 = 0 :=
  (image_camera_degenerate_roundtrip { camera_shape := (1, 768) } (3, 4)).1 rfl

section AxisLemmas

lemma axis_definition_components_ok_pos (axis : AxisDefinition)
    (c : DMDCalibration) (comp : (ℝ × ℝ) × (ℝ × ℝ) × Mat2)
    (h : axis_definition_components axis c = .ok comp) :
    0 < comp.2.1.1 ∧ 0 < comp.2.1.2 := by
  unfold axis_definition_components at h
  simp only at h
  split_ifs at h with hc
  push_neg at hc
  simp only [Except.ok.injEq] at h
  subst h
  exact ⟨hc.1, hc.2⟩

lemma axis_scale_default_value :
    axis_micrometre_scale ⟨(1, 0), 0⟩ {} = .ok (1, 1) := by
  unfold axis_micrometre_scale axis_definition_components
    _camera_pixel_to_micrometre_scale _rotation_matrix
    DMDCalibration.camera_to_micrometre DMDCalibration.camera_to_dmd
    DMDCalibration.dmd_to_micrometre DMDCalibration._camera_basis_matrix
  norm_num [Real.cos_zero, Real.sin_zero, Real.sqrt_one, Except.map,
    Mat2.mul, Mat2.mulVec, Mat2.inv, Mat2.det]

end AxisLemmas

/-- Counterexample to claim C8: at the identity calibration, the axis with
origin (1,0) and angle 0, and the axis point (0,0), the axis-pixel →
micrometre conversion returns (0,0), while the claimed composition
`camera_to_micrometre (axis_to_camera p)` returns (1,0): the two differ. -/
theorem axis_pixels_not_camera_composition :
    axis_pixels_to_axis_micrometre (0, 0) ⟨(1, 0), 0⟩ {} = .ok (0, 0) ∧
      DMDCalibration.camera_to_micrometre {} (axis_to_camera (0, 0) (1, 0) 0) =
        (1, 0) ∧
      ¬((0 : ℝ), (0 : ℝ)) = ((1 : ℝ), (0 : ℝ)) := by
  refine ⟨?_, ?_, by norm_num [Prod.ext_iff]⟩
  · unfold axis_pixels_to_axis_micrometre
    rw [axis_scale_default_value]
    norm_num [Except.map]
  · unfold DMDCalibration.camera_to_micrometre DMDCalibration.camera_to_dmd
      DMDCalibration.dmd_to_micrometre DMDCalibration._camera_basis_matrix
      axis_to_camera _rotation_matrix
    norm_num [Real.cos_zero, Real.sin_zero, Mat2.mul, Mat2.mulVec, Mat2.inv,
      Mat2.det]

/-- Claim C8 (amended): `axis_pixels_to_axis_micrometre` multiplies each
axis-frame coordinate by the per-axis scale `axis_micrometre_scale` (it is
not the composition of `axis_to_camera` with `camera_to_micrometre`), and
`axis_micrometre_to_axis_pixels` divides by the same scales, so whenever the
scales are available the two conversions are mutually inverse. -/
theorem axis_pixel_micrometre_roundtrip (p : ℝ × ℝ) (axis : AxisDefinition)
    (c : DMDCalibration) (s : ℝ × ℝ)
    (h : axis_micrometre_scale axis c = .ok s) :
    axis_pixels_to_axis_micrometre p axis c = .ok (p.1 * s.1, p.2 * s.2) ∧
      axis_micrometre_to_axis_pixels (p.1 * s.1, p.2 * s.2) axis c = .ok p := by
  have hpos : 0 < s.1 ∧ 0 < s.2 := by
    unfold axis_micrometre_scale at h
    cases hcomp : axis_definition_components axis c with
    | error e =>
      rw [hcomp] at h
      simp [Except.map] at h
    | ok comp =>
      rw [hcomp] at h
      simp only [Except.map, Except.ok.injEq] at h
      subst h
      exact axis_definition_components_ok_pos axis c comp hcomp
  constructor
  · unfold axis_pixels_to_axis_micrometre
    rw [h]
    rfl
  · unfold axis_micrometre_to_axis_pixels
    rw [h]
    simp only [Except.map, Except.ok.injEq]
    exact Prod.ext (mul_div_cancel_right₀ _ (ne_of_gt hpos.1))
      (mul_div_cancel_right₀ _ (ne_of_gt hpos.2))

/-- Witness for C8 (amended): at the identity calibration and the axis at
origin (1,0), angle 0, the point (2,3) scales to (2,3) µm and back. -/
theorem axis_pixel_micrometre_roundtrip_witness :
    axis_pixels_to_axis_micrometre (2, 3) ⟨(1, 0), 0⟩ {} = .ok (2 * 1, 3 * 1) ∧
      axis_micrometre_to_axis_pixels (2 * 1, 3 * 1) ⟨(1, 0), 0⟩ {} =
        .ok (2, 3) :=
  axis_pixel_micrometre_roundtrip (2, 3) ⟨(1, 0), 0⟩ {} (1, 1)
    axis_scale_default_value

/-- Counterexample to claim C9: on a calibration with a degenerate
micrometre scale, `axis_micrometre_scale` raises `ValueError` (modelled as
`Except.error`) instead of returning an "unavailable" value. -/
theorem axis_micrometre_scale_error_on_degenerate :
    axis_micrometre_scale ⟨(0, 0), 0⟩ zeroScaleCal =
      .error "Invalid axis scale computed from calibration." := by
  unfold axis_micrometre_scale axis_definition_components
    _camera_pixel_to_micrometre_scale _rotation_matrix zeroScaleCal
  norm_num [Real.cos_zero, Real.sin_zero, Except.map,
    DMDCalibration.camera_to_micrometre, DMDCalibration.camera_to_dmd,
    DMDCalibration.dmd_to_micrometre, DMDCalibration._camera_basis_matrix,
    Mat2.mul, Mat2.mulVec, Mat2.inv, Mat2.det]

/-- Claim C9 (amended): `axis_micrometre_scale` either raises a `ValueError`
(when the computed per-axis scale degenerates; UI callers catch it and
display "unavailable") or returns strictly positive per-axis scales — it
never returns an invalid (non-positive) scale. -/
theorem axis_micrometre_scale_valid_or_error (axis : AxisDefinition)
    (c : DMDCalibration) :
    (∃ msg, axis_micrometre_scale axis c = .error msg) ∨
      (∃ s, axis_micrometre_scale axis c = .ok s ∧ 0 < s.1 ∧ 0 < s.2) := by
  cases hcomp : axis_definition_components axis c with
  | error e =>
    refine Or.inl ⟨e, ?_⟩
    unfold axis_micrometre_scale
    rw [hcomp]
    rfl
  | ok comp =>
    have hpos := axis_definition_components_ok_pos axis c comp hcomp
    refine Or.inr ⟨comp.2.1, ?_, hpos.1, hpos.2⟩
    unfold axis_micrometre_scale
    rw [hcomp]
    rfl

/-- Claim C5: when the first timing plus the (negative) delay is below zero,
`play_pattern_sequence` fails with the assertion error before any device
I/O: the returned `Except.error` carries no device state, so no frame upload
(`dmd.frames = ...`) and no `show_frame` schedule is produced and the input
device state is untouched. -/
theorem play_rejects_excess_anticipation
    (polygon2mask : ℤ × ℤ → List (ℝ × ℝ) → (ℤ × ℤ → Bool)) (dmd : DeviceState)
    (ps : PatternSequence) (cal : DMDCalibration) (delay : ℝ)
    (axis : Option AxisDefinition) (now : ℝ) (t : ℝ) (rest : List ℝ)
    (hts : ps.timings = t :: rest) (hneg : t + delay < 0) :
    play_pattern_sequence polygon2mask dmd ps cal delay axis now =
      .error "Anticipation cannot be longer than the first timing." := by
  unfold play_pattern_sequence
  rw [hts]
  simp only [ge_iff_le, not_le, hneg, if_true]

/-- Witness for C5: a single 100 ms timing with a −200 ms delay is rejected
with the assertion message. -/
theorem play_rejects_excess_anticipation_witness :
    play_pattern_sequence (fun _ _ _ => false) {}
        ⟨[], [0], [100], [0], none, none⟩ {} (-200) none 0 =
      .error "Anticipation cannot be longer than the first timing." :=
  play_rejects_excess_anticipation (fun _ _ _ => false) {}
    ⟨[], [0], [100], [0], none, none⟩ {} (-200) none 0 100 [] rfl (by norm_num)

/-- Claim C7: constructing a `PatternSequence` succeeds exactly when
`len(sequence) = len(timings) = len(durations)`, `descriptions` (when
present) matches `len(patterns)`, and `shape_types` (when present) matches
`len(patterns)` in outer length and each pattern's shape count in inner
length.  The right-hand side places no constraint on the values in
`sequence`: out-of-range pattern indices are accepted. -/
theorem pattern_sequence_validation (patterns : List (List (List (ℝ × ℝ))))
    (sequence : List ℤ) (timings durations : List ℝ)
    (descriptions : Option (List String))
    (shape_types : Option (List (List String))) :
    (∃ ps, mkPatternSequence patterns sequence timings durations descriptions
        shape_types = .ok ps) ↔
      (sequence.length = timings.length ∧ timings.length = durations.length ∧
        (∀ d, descriptions = some d → d.length = patterns.length) ∧
        (∀ st, shape_types = some st → st.length = patterns.length ∧
          ∀ pr ∈ st.zip patterns, pr.1.length = pr.2.length)) := by
  rcases descriptions with _ | d <;> rcases shape_types with _ | st <;>
    simp only [mkPatternSequence, _check_descriptions, _check_shape_types] <;>
    split_ifs <;>
    simp_all [List.any_eq_true, bne_iff_ne]
  all_goals tauto

/-- Witness-style instance for C7: a sequence entry may be an out-of-range
pattern index (5 with no patterns) and construction still succeeds. -/
theorem pattern_sequence_validation_witness :
    ∃ ps, mkPatternSequence [] [5] [0] [0] none none = .ok ps :=
  (pattern_sequence_validation [] [5] [0] [0] none none).mpr
    (by simp)

/-- Claim C6: `start` returns `already_running` and changes nothing when a
worker is alive; otherwise it clears the cancellation signal, marks a live
worker and returns `started`.  `stop` returns `not_running` and changes
nothing when no worker is alive; otherwise it sets the cancellation signal
and returns `stopped` (after a bounded join whose outcome is the
environment input `j`). -/
theorem cancellable_task_start_stop (s : CancellableTaskState) (j : Bool) :
    (s.threadAlive = true →
        CancellableTask.start s = (.already_running, s)) ∧
      (s.threadAlive = false →
        CancellableTask.start s = (.started, ⟨true, false⟩)) ∧
      (s.threadAlive = false →
        CancellableTask.stop s j = (.not_running, s)) ∧
      (s.threadAlive = true →
        (CancellableTask.stop s j).1 = .stopped ∧
          (CancellableTask.stop s j).2.stopEvt = true) := by
  cases s with
  | mk alive evt =>
    cases alive <;>
      simp [CancellableTask.start, CancellableTask.stop,
        CancellableTask.is_running]

/-- Witness for C6: starting from a state with a live worker reports
`already_running` and leaves the state unchanged. -/
theorem cancellable_task_start_stop_witness :
    CancellableTask.start ⟨true, false⟩ = (.already_running, ⟨true, false⟩) :=
  (cancellable_task_start_stop ⟨true, false⟩ true).1 rfl
